import Mathlib

/-!
Verification of the `supercapacitors` repository (mmsg-warwick/supercapacitors).

The repository is glue between domain content (electrochemical models and
parameter sets) and the external host framework `pybamm`.  Its externally
visible behaviour is determined by the packaging metadata in `pyproject.toml`
(entry-point registrations and the dependency list) together with the thin
lookup layer of the `supercapacitors` package demonstrated in
`examples/supercapacitor.ipynb`.

The entry-point tables, dependency list and entry-point group names below are
transcribed verbatim from `pyproject.toml`.  The lookup layer
(`supercapacitors.Model`, `supercapacitors.parameter_sets`) and the model and
parameter-set bodies live in `src/supercapacitors/`, which is not part of the
sources available here; those definitions are modelled from the specification
and carry a doc comment saying so.
-/

namespace Supercapacitors

/-- An entry point registered in `pyproject.toml`: a string name mapping to a
`module:attribute` target string. -/
structure EntryPoint where
  name : String
  target : String
deriving DecidableEq, Repr

/-- The `[project.entry-points."models"]` table of `pyproject.toml`,
transcribed verbatim. -/
def modelEntryPoints : List EntryPoint :=
  [ ⟨"SPM", "supercapacitors.models.input.SPM:SPM"⟩,
    ⟨"BasicReservoir", "supercapacitors.models.input.BasicReservoir:BasicReservoir"⟩,
    ⟨"VerbruggeLiu", "supercapacitors.models.input.VerbruggeLiu:VerbruggeLiu"⟩ ]

/-- The `[project.entry-points."parameter_sets"]` table of `pyproject.toml`,
transcribed verbatim. -/
def parameterSetEntryPoints : List EntryPoint :=
  [ ⟨"Chen2020", "supercapacitors.parameters.input.Chen2020:get_parameter_values"⟩,
    ⟨"Verbrugge2005", "supercapacitors.parameters.input.Verbrugge2005:get_parameter_values"⟩,
    ⟨"Iamrod2024", "supercapacitors.parameters.input.Iamrod2024:get_parameter_values"⟩ ]

/-- The entry-point groups declared in `pyproject.toml`, in file order: the
`parameter_sets` group and the `models` group, and no other group. -/
def entryPointGroups : List (String × List EntryPoint) :=
  [ ("parameter_sets", parameterSetEntryPoints),
    ("models", modelEntryPoints) ]

/-- The `dependencies` field of `[project]` in `pyproject.toml`,
transcribed verbatim. -/
def dependencies : List String := ["pybamm"]

/-- An error produced by the host framework.  The repository defines no error
type of its own; the only failures the specification admits are the host
validation failures at model-build or solve time. -/
inductive HostError where
  | validationFailure (message : String)
deriving DecidableEq, Repr

/-- Split a character list at the first colon, returning the parts before and
after it; `none` when no colon occurs. -/
def breakAtColon : List Char → Option (List Char × List Char)
  | [] => none
  | c :: rest =>
      if c = ':' then some ([], rest)
      else
        match breakAtColon rest with
        | some (l, r) => some (c :: l, r)
        | none => none

/-- Whether a character list contains a colon. -/
def containsColon (cs : List Char) : Bool :=
  cs.any (fun c => c == ':')

/-- Parsing of an entry-point target string into a module path and an
attribute name, as the host plugin-discovery mechanism does when it loads
`module:attribute`.  A target without exactly one colon is rejected with a
host validation failure. -/
def parseTarget (t : String) : Except HostError (String × String) :=
  match breakAtColon t.toList with
  | some (m, a) =>
      if containsColon a then
        Except.error (HostError.validationFailure ("malformed entry point target " ++ t))
      else
        Except.ok (String.mk m, String.mk a)
  | none => Except.error (HostError.validationFailure ("malformed entry point target " ++ t))

/-- Modelled from the spec: the bodies of the three model classes live in
`src/supercapacitors/models/input/`, which is not among the available sources.
The spec describes a Model as a named bundle of symbolic expressions and
declared variables, fully determined at load time; we represent the loaded
model object by its registered name together with the module path and class
name it is loaded from. -/
structure ModelBundle where
  name : String
  modulePath : String
  className : String
deriving DecidableEq, Repr

/-- Modelled from the spec: the bodies of the three parameter-set modules live
in `src/supercapacitors/parameters/input/`, which is not among the available
sources.  The spec describes a Parameter Set as a flat key-value table defined
at load time; we represent the loaded table by its registered name together
with the module path and getter name it is loaded from. -/
structure ParamTable where
  name : String
  modulePath : String
  getterName : String
deriving DecidableEq, Repr

/-- Look up an entry point by its registered string name, as the host
plugin-discovery mechanism does. -/
def findEntryPoint (eps : List EntryPoint) (n : String) : Option EntryPoint :=
  eps.find? (fun e => e.name == n)

/-- Load the model object referred to by an entry point: parse the target and
package the result as the loaded bundle.  A malformed target surfaces as a
host validation failure. -/
def loadModel (e : EntryPoint) : Except HostError ModelBundle :=
  match parseTarget e.target with
  | Except.ok (m, a) => Except.ok ⟨e.name, m, a⟩
  | Except.error err => Except.error err

/-- Load the parameter table referred to by an entry point: parse the target
and package the result as the loaded table.  A malformed target surfaces as a
host validation failure. -/
def loadTable (e : EntryPoint) : Except HostError ParamTable :=
  match parseTarget e.target with
  | Except.ok (m, a) => Except.ok ⟨e.name, m, a⟩
  | Except.error err => Except.error err

/-- Modelled from the spec: `supercapacitors.Model`, the callable demonstrated
in `examples/supercapacitor.ipynb` (`supercapacitors.Model "VerbruggeLiu"`).
It takes a registered model name, resolves it through the registered model
entry points and returns the loaded model object; an unregistered name or a
malformed target yields no object. -/
def Model (n : String) : Option ModelBundle :=
  match findEntryPoint modelEntryPoints n with
  | some e => (loadModel e).toOption
  | none => none

/-- Modelled from the spec: `supercapacitors.parameter_sets`, the mapping
demonstrated in `examples/supercapacitor.ipynb`
(`supercapacitors.parameter_sets "Verbrugge2005"`).  It takes a registered
parameter-set name, resolves it through the registered parameter-set entry
points and returns the loaded key-value table; an unregistered name or a
malformed target yields no table. -/
def parameter_sets (n : String) : Option ParamTable :=
  match findEntryPoint parameterSetEntryPoints n with
  | some e => (loadTable e).toOption
  | none => none

/-- Modelled from the spec: `pybamm.ParameterValues` accepts a key-value table
produced by a registered parameter set, as demonstrated in the notebook
(`pybamm.ParameterValues (supercapacitors.parameter_sets "Verbrugge2005")`).
The host accepts every table the repository produces; any parameter problem
surfaces later, at model-build or solve time. -/
def pybammParameterValues (t : ParamTable) : Except HostError ParamTable :=
  Except.ok t

/-- Modelled from the spec: pairing a model with a parameter set for solving.
The spec states that compatibility is a naming and unit convention only and
that no mechanism in this repository validates, restricts or rejects any
combination, so the pairing is formed unconditionally; any equation or
parameter problem surfaces later as a host validation failure at build or
solve time. -/
def buildSimulation (m : ModelBundle) (p : ParamTable) :
    Except HostError (ModelBundle × ParamTable) :=
  Except.ok (m, p)

/-- Modelled from the spec: registration and load of this repository.  Loading
the package registers the two entry-point tables by parsing every target; the
result of loading is the pair of loaded model bundles and parameter tables.
Per the spec, no repository-specific error can arise here; a failure could
only come from the host rejecting a malformed target. -/
def loadRepository :
    Except HostError (List ModelBundle × List ParamTable) :=
  match modelEntryPoints.mapM loadModel, parameterSetEntryPoints.mapM loadTable with
  | Except.ok ms, Except.ok ts => Except.ok (ms, ts)
  | Except.error err, _ => Except.error err
  | _, Except.error err => Except.error err

/-- Modelled from the spec: the operations this repository offers after load
time.  The spec gives Models and Parameter Sets no lifecycle beyond
construction and registration, so the only operations are lookups by string
name. -/
inductive RepoOp where
  | lookupModel (n : String)
  | lookupParamSet (n : String)
deriving DecidableEq, Repr

/-- The state of the repository after load: the two registered entry-point
tables. -/
structure RepoState where
  models : List EntryPoint
  parameterSets : List EntryPoint
deriving DecidableEq, Repr

/-- The result of a repository operation. -/
inductive OpResult where
  | modelResult (b : Option ModelBundle)
  | tableResult (t : Option ParamTable)
deriving DecidableEq, Repr

/-- Apply a repository operation to the repository state, returning the new
state and the result of the operation.  Lookups read the registered tables
and load the referred object. -/
def applyOp (s : RepoState) (op : RepoOp) : RepoState × OpResult :=
  match op with
  | RepoOp.lookupModel n =>
      match findEntryPoint s.models n with
      | some e => (s, OpResult.modelResult (loadModel e).toOption)
      | none => (s, OpResult.modelResult none)
  | RepoOp.lookupParamSet n =>
      match findEntryPoint s.parameterSets n with
      | some e => (s, OpResult.tableResult (loadTable e).toOption)
      | none => (s, OpResult.tableResult none)

/-- The repository state as loaded from `pyproject.toml`. -/
def initialState : RepoState :=
  ⟨modelEntryPoints, parameterSetEntryPoints⟩

/-- The target string the uniform naming convention prescribes for a model
entry point named `n`: class `n` in module `supercapacitors.models.input.n`. -/
def modelConventionTarget (n : String) : String :=
  "supercapacitors.models.input." ++ n ++ ":" ++ n

/-- The target string the uniform naming convention prescribes for a
parameter-set entry point named `p`: function `get_parameter_values` in module
`supercapacitors.parameters.input.p`. -/
def paramConventionTarget (p : String) : String :=
  "supercapacitors.parameters.input." ++ p ++ ":get_parameter_values"

end Supercapacitors

namespace Supercapacitors

/-- C1: the `models` entry-point group of `pyproject.toml` registers exactly
the names `SPM`, `BasicReservoir` and `VerbruggeLiu`, in that order, and no
other model name. -/
theorem c1_registered_model_names :
    modelEntryPoints.map EntryPoint.name = ["SPM", "BasicReservoir", "VerbruggeLiu"] := by
  rfl

/-- C2: the `parameter_sets` entry-point group of `pyproject.toml` registers
exactly the names `Chen2020`, `Verbrugge2005` and `Iamrod2024`, and no other
parameter-set name. -/
theorem c2_registered_parameter_set_names :
    parameterSetEntryPoints.map EntryPoint.name = ["Chen2020", "Verbrugge2005", "Iamrod2024"] := by
  rfl

/-- C10: `pyproject.toml` declares exactly one runtime dependency, the host
framework `pybamm`; the repository ships no numerical, solver or
discretization library of its own. -/
theorem c10_single_runtime_dependency :
    dependencies = ["pybamm"] ∧ dependencies.length = 1 := by
  exact ⟨rfl, rfl⟩

/-- C3: the external surface of the repository consists exactly of the two
entry-point groups `parameter_sets` and `models` declared in `pyproject.toml`,
looked up by string name; every registered model name resolves to a model
object and every registered parameter-set name resolves to a key-value
table. -/
theorem c3_external_surface :
    entryPointGroups.map Prod.fst = ["parameter_sets", "models"] ∧
    modelEntryPoints.all (fun e => (Model e.name).isSome) = true ∧
    parameterSetEntryPoints.all (fun e => (parameter_sets e.name).isSome) = true := by
  refine ⟨rfl, ?_, ?_⟩ <;> decide

/-- C5: no mechanism of this repository validates, restricts or rejects any
model and parameter-set combination: pairing any model object with any
parameter table for solving succeeds unconditionally. -/
theorem c5_no_compatibility_check :
    ∀ (m : ModelBundle) (p : ParamTable), buildSimulation m p = Except.ok (m, p) := by
  intro m p
  rfl

/-- C6: loading and registering the repository raises no error at all, in
particular no repository-specific one: every registered entry point parses
and loads, and the load result is exactly the six loaded objects.  Any
equation or parameter error can only surface later, through the host
validation failures of `buildSimulation` at build or solve time. -/
theorem c6_no_error_at_registration :
    loadRepository = Except.ok
      ( [ ⟨"SPM", "supercapacitors.models.input.SPM", "SPM"⟩,
          ⟨"BasicReservoir", "supercapacitors.models.input.BasicReservoir", "BasicReservoir"⟩,
          ⟨"VerbruggeLiu", "supercapacitors.models.input.VerbruggeLiu", "VerbruggeLiu"⟩ ],
        [ ⟨"Chen2020", "supercapacitors.parameters.input.Chen2020", "get_parameter_values"⟩,
          ⟨"Verbrugge2005", "supercapacitors.parameters.input.Verbrugge2005", "get_parameter_values"⟩,
          ⟨"Iamrod2024", "supercapacitors.parameters.input.Iamrod2024", "get_parameter_values"⟩ ] ) := by
  rfl

/-- C7: no repository operation mutates the registered tables: applying any
lookup operation to any repository state leaves the state unchanged, so
models and parameter sets have no lifecycle beyond construction and
registration. -/
theorem c7_operations_never_mutate :
    ∀ (s : RepoState) (op : RepoOp), (applyOp s op).fst = s := by
  intro s op
  cases op with
  | lookupModel n =>
      simp only [applyOp]
      cases findEntryPoint s.models n <;> rfl
  | lookupParamSet n =>
      simp only [applyOp]
      cases findEntryPoint s.parameterSets n <;> rfl

/-- C8: the registered entry points follow a uniform naming convention: every
model name `N` targets class `N` in module `supercapacitors.models.input.N`,
and every parameter-set name `P` targets the function `get_parameter_values`
in module `supercapacitors.parameters.input.P`. -/
theorem c8_uniform_naming_convention :
    modelEntryPoints.all (fun e => e.target == modelConventionTarget e.name) = true ∧
    parameterSetEntryPoints.all (fun e => e.target == paramConventionTarget e.name) = true ∧
    modelEntryPoints.all (fun e =>
      match parseTarget e.target with
      | Except.ok (m, a) => m == ("supercapacitors.models.input." ++ e.name) && a == e.name
      | Except.error _ => false) = true ∧
    parameterSetEntryPoints.all (fun e =>
      match parseTarget e.target with
      | Except.ok (m, a) =>
          m == ("supercapacitors.parameters.input." ++ e.name) && a == "get_parameter_values"
      | Except.error _ => false) = true := by
  refine ⟨?_, ?_, ?_, ?_⟩ <;> decide

/-- C9: the top-level package offers a direct interface beside the raw
entry-point route: the callable `Model` maps each registered model name to
the corresponding model object, and the mapping `parameter_sets` yields for
each registered parameter-set name a table accepted by
`pybamm.ParameterValues`. -/
theorem c9_direct_python_interface :
    Model ("SPM") = some ⟨"SPM", "supercapacitors.models.input.SPM", "SPM"⟩ ∧
    Model ("BasicReservoir") =
      some ⟨"BasicReservoir", "supercapacitors.models.input.BasicReservoir", "BasicReservoir"⟩ ∧
    Model ("VerbruggeLiu") =
      some ⟨"VerbruggeLiu", "supercapacitors.models.input.VerbruggeLiu", "VerbruggeLiu"⟩ ∧
    parameterSetEntryPoints.all (fun e =>
      (parameter_sets e.name).any (fun t =>
        match pybammParameterValues t with
        | Except.ok u => u == t
        | Except.error _ => false)) = true := by
  refine ⟨rfl, rfl, rfl, by decide⟩

end Supercapacitors
